/-
Verification of the grokvalidator preprocessing pipeline (src/backend.py,
src/config.py) against its natural-language specification.

Shallow embedding: the routing logic, safety gate, cost accounting,
fragment sequencing and the `/run` request handler of src/backend.py are
translated into pure Lean functions.  External model calls are modelled by
an environment of oracles (`Env`); monetary arithmetic is modelled over ℚ
(Python floats are binary, but every claim here concerns values far from
rounding ties, where the two agree); Python `round(x, 6)` is modelled by
`round6` (Python uses banker's rounding, Mathlib `round` rounds half up —
they differ only at exact ties of the seventh decimal, which no claim
touches).
-/
import Mathlib

namespace GrokValidator

/-! ## Configuration (src/config.py) -/

def AGENT1_MODEL : String := "grok-2-vision-1212"

def AGENT2_MODEL : String := "grok-4-1-fast-non-reasoning"

def AGENT3_MODEL : String := "grok-4-1-fast-non-reasoning"

/-- config.py: `ROUTE_TO_ADULT_WHEN_NSFW = True`. -/
def ROUTE_TO_ADULT_WHEN_NSFW : Bool := true

/-- config.py: `GATE_ALLOWED_VALUES = ["no"]`. -/
def GATE_ALLOWED_VALUES : List String := ["no"]

/-- config.py: `VIDEO_DURATIONS = [5, 10]`. -/
def VIDEO_DURATIONS : List Int := [5, 10]

def DEFAULT_DURATION : Int := 5

def FRAGMENT_LENGTH : Int := 5

def MAX_IMAGE_SIZE_BYTES : Nat := 20 * 1024 * 1024

def ALLOWED_IMAGE_TYPES : List String := ["image/jpeg", "image/jpg", "image/png"]

/-- A per-model price pair (USD per million input / output tokens). -/
structure Pricing where
  input_per_million : ℚ
  output_per_million : ℚ
deriving DecidableEq, Repr

/-- config.py `MODEL_PRICING` as a partial lookup (Python `dict.get`). -/
def MODEL_PRICING (model : String) : Option Pricing :=
  if model = "grok-2-vision-latest" then some ⟨1/5, 1/2⟩
  else if model = "grok-2-vision-1212" then some ⟨1/5, 1/2⟩
  else if model = "grok-4-1-fast-non-reasoning" then some ⟨1/5, 1/2⟩
  else if model = "grok-4" then some ⟨2, 10⟩
  else if model = "_default" then some ⟨1/5, 1/2⟩
  else none

/-! ## Cost accounting (backend.py lines 75–103) -/

/-- backend.py `get_model_pricing`: table lookup, falling back to the
`_default` entry (itself defaulted to 0.20 / 0.50 if absent). -/
def get_model_pricing (model : String) : Pricing :=
  (MODEL_PRICING model).getD ((MODEL_PRICING "_default").getD ⟨1/5, 1/2⟩)

/-- Python `round(x, 6)` over ℚ (see the file header for the tie caveat). -/
def round6 (x : ℚ) : ℚ := (round (x * 1000000) : ℤ) / 1000000

/-- The cost record returned by backend.py `calculate_cost`. -/
structure CostRecord where
  model : String
  input_tokens : Nat
  output_tokens : Nat
  total_tokens : Nat
  input_cost_usd : ℚ
  output_cost_usd : ℚ
  total_cost_usd : ℚ
  pricing : Pricing
deriving DecidableEq, Repr

/-- The exact (unrounded) input cost of a call, as computed on line 87. -/
def exact_input_cost (model : String) (input_tokens : Nat) : ℚ :=
  ((input_tokens : ℚ) / 1000000) * (get_model_pricing model).input_per_million

/-- The exact (unrounded) output cost of a call, as computed on line 88. -/
def exact_output_cost (model : String) (output_tokens : Nat) : ℚ :=
  ((output_tokens : ℚ) / 1000000) * (get_model_pricing model).output_per_million

/-- The exact (unrounded) total cost of a call, line 89. -/
def exact_total_cost (model : String) (input_tokens output_tokens : Nat) : ℚ :=
  exact_input_cost model input_tokens + exact_output_cost model output_tokens

/-- backend.py `calculate_cost` (lines 83–103). -/
def calculate_cost (model : String) (input_tokens output_tokens : Nat) : CostRecord :=
  let pricing := get_model_pricing model
  let input_cost := ((input_tokens : ℚ) / 1000000) * pricing.input_per_million
  let output_cost := ((output_tokens : ℚ) / 1000000) * pricing.output_per_million
  let total_cost := input_cost + output_cost
  { model := model
    input_tokens := input_tokens
    output_tokens := output_tokens
    total_tokens := input_tokens + output_tokens
    input_cost_usd := round6 input_cost
    output_cost_usd := round6 output_cost
    total_cost_usd := round6 total_cost
    pricing := pricing }

/-! ## Routing (backend.py `determine_route`, lines 216–259) -/

/-- The parsed Agent 1 JSON.  Fields are optional because the routing code
reads them with `dict.get` and a default. -/
structure Agent1Result where
  people_count : Option Int
  minor_under_16 : Option String
  nsfw : Option Bool
  description : Option String
deriving DecidableEq, Repr

/-- The routing decision dict returned by `determine_route`. -/
structure Route where
  agent : String
  gate_applied : Bool
  gate_passed : Option Bool
  reason : String
deriving DecidableEq, Repr

/-- Python `repr` of a list of strings, as an f-string renders
`config.GATE_ALLOWED_VALUES` (e.g. `['no']`). -/
def pyListRepr (xs : List String) : String :=
  "[" ++ String.intercalate ", " (xs.map (fun s => "\x27" ++ s ++ "\x27")) ++ "]"

/-- backend.py `determine_route` (lines 216–259). -/
def determine_route (agent1_result : Agent1Result) : Route :=
  let nsfw := agent1_result.nsfw.getD false
  let minor_status := agent1_result.minor_under_16.getD "unclear"
  if nsfw && ROUTE_TO_ADULT_WHEN_NSFW then
    if minor_status ∉ GATE_ALLOWED_VALUES then
      { agent := "blocked"
        gate_applied := true
        gate_passed := some false
        reason := "Adult content blocked: minor_under_16=\x27" ++ minor_status ++
          "\x27 (requires: " ++ pyListRepr GATE_ALLOWED_VALUES ++ ")" }
    else
      { agent := "agent3"
        gate_applied := true
        gate_passed := some true
        reason := "Adult content allowed: no minors detected" }
  else
    { agent := "agent2"
      gate_applied := false
      gate_passed := none
      reason := "Neutral content: routed to safe enhancer" }

/-! ## User message builder (backend.py `build_user_message`, lines 266–300) -/

/-- The `previous_fragment` dict passed for Fragment 2+ (lines 543–546). -/
structure PrevFrag where
  prompt : String
  time_range : String
deriving DecidableEq, Repr

/-- The continuation section appended for Fragment 2+ (lines 292–298). -/
def continuation_section (pf : PrevFrag) : String :=
  "\n\n--- Previous Fragment (" ++ pf.time_range ++ ") ---\nEnhanced prompt used: \"" ++
    pf.prompt ++
    "\"\n\nGenerate the continuation for the next 5-second fragment. Advance the action naturally from where the previous fragment ended."

/-- backend.py `build_user_message` (lines 266–300). -/
def build_user_message (user_prompt image_description : String) (people_count : Int)
    (previous_fragment : Option PrevFrag) : String :=
  let message := "Image analysis:\n- People count: " ++ toString people_count ++
    "\n- Description: " ++ image_description ++ "\n\nUser\x27s original prompt:\n" ++
    user_prompt
  match previous_fragment with
  | none => message
  | some pf => message ++ continuation_section pf

/-! ## Request model and Python primitives -/

/-- The whitespace characters Python strips by default (the ASCII ones;
all inputs here are ASCII). -/
def pyIsSpace (c : Char) : Bool :=
  c = ' ' ∨ c = '\t' ∨ c = '\n' ∨ c = '\r' ∨ c = '\x0b' ∨ c = '\x0c'

/-- Python `str.strip()`: drop whitespace from both ends. -/
def pyStrip (s : String) : String :=
  ⟨((s.data.dropWhile pyIsSpace).reverse.dropWhile pyIsSpace).reverse⟩

/-- Python `int(s)` on a string: optional surrounding whitespace, optional
sign, then a non-empty digit run; anything else raises `ValueError`.
(Underscore digit separators are not modelled; no request here uses them.) -/
def pyInt (s : String) : Option Int :=
  let t := pyStrip s
  let core : List Char × Bool :=
    match t.data with
    | '-' :: rest => (rest, true)
    | '+' :: rest => (rest, false)
    | cs => (cs, false)
  if core.1 ≠ [] ∧ core.1.all Char.isDigit then
    let n : Nat := core.1.foldl (fun a c => a * 10 + (c.toNat - 48)) 0
    some (if core.2 then -(n : Int) else (n : Int))
  else none

/-- `str(e)` for the `ValueError` raised by `int()` on a bad literal. -/
def int_conversion_error (s : String) : String :=
  "invalid literal for int() with base 10: \x27" ++ s ++ "\x27"

/-- The uploaded file: its MIME type and its byte length (the pipeline
inspects nothing else of the bytes before handing them to the model). -/
structure ImageFile where
  content_type : String
  size : Nat
deriving DecidableEq, Repr

/-- The multipart form of a `POST /run` request. -/
structure Request where
  image : Option ImageFile
  prompt : String
  duration_field : Option String
deriving DecidableEq, Repr

/-- `int(request.form.get("duration", config.DEFAULT_DURATION))` (line 443):
an absent field yields the integer default; a string field must parse. -/
def parse_duration (f : Option String) : Option Int :=
  match f with
  | none => some DEFAULT_DURATION
  | some s => pyInt s

/-! ## External-call oracles -/

/-- Outcome of one external chat-completion call: parsed payload plus token
usage, or one of the two failure modes the handler distinguishes
(a generic upstream exception vs. `json.JSONDecodeError`). -/
inductive ExtResult (α : Type) where
  | ok : α → Nat → Nat → ExtResult α
  | upstream : String → ExtResult α
  | malformed : String → ExtResult α
deriving DecidableEq, Repr

/-- The pipeline's collaborators: the API key environment variable, the
Agent 1 analysis call, and the enhancement call for each fragment index
(0-based); the real calls are opaque capabilities, so they are oracles. -/
structure Env where
  api_key : Option String
  agent1 : ExtResult Agent1Result
  enhancer : Nat → ExtResult String

/-! ## Pipeline (backend.py `run_pipeline`, lines 418–617) -/

/-- Running cost totals (`costs["total"]`, lines 474–479): note that
`total_cost_usd` accumulates the already-rounded per-call totals. -/
structure Totals where
  input_tokens : Nat
  output_tokens : Nat
  total_tokens : Nat
  total_cost_usd : ℚ
deriving DecidableEq, Repr

def Totals.init : Totals := ⟨0, 0, 0, 0⟩

/-- Lines 495–498 / 589–592: add one call's cost record into the totals. -/
def Totals.add (t : Totals) (c : CostRecord) : Totals :=
  { input_tokens := t.input_tokens + c.input_tokens
    output_tokens := t.output_tokens + c.output_tokens
    total_tokens := t.total_tokens + c.total_tokens
    total_cost_usd := t.total_cost_usd + c.total_cost_usd }

/-- The `costs` dict of a finished result. -/
structure Costs where
  agent1 : CostRecord
  fragments : List CostRecord
  total : Totals
deriving DecidableEq, Repr

/-- One entry of `result["fragments"]` (lines 562–583).  `user_message` is
the enhancement call's user message as stored in the fragment's request
details; `prompt` is the enhancer's generated prompt text. -/
structure FragmentInfo where
  fragment_number : Nat
  time_range : String
  agent_used : String
  prompt : String
  user_message : String
  cost : CostRecord
  demo_note : Option String
deriving DecidableEq, Repr

def DEMO_NOTE : String :=
  "DEMO MODE: Using same uploaded image. PRODUCTION: Use last frame of previous video fragment as first frame."

/-- The assembled result stored in the latest-result slot (lines 509–525,
585–603). -/
structure PipelineResult where
  duration : Int
  num_fragments : Nat
  agent1_result : Agent1Result
  routing : Route
  fragments : List FragmentInfo
  costs : Costs
  blocked : Bool
  blocked_reason : Option String
deriving DecidableEq, Repr

/-- What one `POST /run` produces: the HTTP status, the error body (non-200)
or result body (200), how many external calls were issued, and the value of
the process-wide `latest_result` slot after the request. -/
structure RunOutcome where
  status : Nat
  error : Option String
  result : Option PipelineResult
  agent1_calls : Nat
  enhancer_calls : Nat
  latest : Option PipelineResult
deriving Repr

/-- The validated inputs once the checks of lines 437–463 all pass. -/
structure ValidInput where
  image : ImageFile
  user_prompt : String
  duration : Int
deriving DecidableEq, Repr

/-- Input validation, lines 437–463, in source order: missing image (438),
duration conversion (443, `ValueError` → 500 via the handler at 607),
empty trimmed prompt (445), disallowed duration (448), disallowed MIME type
(453), oversized image (461). -/
def validate (req : Request) : Except (Nat × String) ValidInput :=
  match req.image with
  | none => .error (400, "No image file provided")
  | some img =>
    let user_prompt := pyStrip req.prompt
    match req.duration_field, parse_duration req.duration_field with
    | some s, none => .error (500, int_conversion_error s)
    | none, none => .error (500, int_conversion_error "")
    | _, some duration =>
      if user_prompt = "" then .error (400, "No prompt provided")
      else if duration ∉ VIDEO_DURATIONS then
        .error (400, "Invalid duration. Allowed: [5, 10]")
      else if img.content_type ∉ ALLOWED_IMAGE_TYPES then
        .error (400, "Unsupported image type: " ++ img.content_type ++ ". Allowed: " ++
          pyListRepr ALLOWED_IMAGE_TYPES)
      else if img.size > MAX_IMAGE_SIZE_BYTES then
        .error (400, "Image too large. Maximum size is 20 MiB.")
      else .ok ⟨img, user_prompt, duration⟩

/-- A mid-pipeline failure and the 500 error string the handlers at
lines 607–617 produce for it. -/
def ext_error_message {α : Type} (r : ExtResult α) : String :=
  match r with
  | .ok _ _ _ => ""
  | .upstream e => "Pipeline failed: " ++ e
  | .malformed e => "Failed to parse JSON response: " ++ e

/-- The fragment loop, lines 534–592.  `fragment_num` is the 1-based loop
variable, `remaining` how many iterations are left; `acc`, `frag_costs` and
`tot` mirror `result["fragments"]`, `costs["fragments"]` and
`costs["total"]`.  Returns the number of enhancement calls issued and
either the completed state or the failure that aborted the loop. -/
def frag_loop (enh : Nat → ExtResult String) (agent_name user_prompt image_description : String)
    (people_count : Int) (fragment_num : Nat) (acc : List FragmentInfo)
    (frag_costs : List CostRecord) (tot : Totals) :
    (remaining : Nat) → Nat × Except String (List FragmentInfo × List CostRecord × Totals)
  | 0 => (0, .ok (acc, frag_costs, tot))
  | remaining + 1 =>
    let time_start := (fragment_num - 1) * 5
    let time_end := fragment_num * 5
    let time_range := toString time_start ++ "-" ++ toString time_end ++ " sec"
    let previous_fragment : Option PrevFrag :=
      if fragment_num > 1 ∧ acc.length > 0 then
        match acc.getLast? with
        | some prev => some ⟨prev.prompt, prev.time_range⟩
        | none => none
      else none
    let user_message := build_user_message user_prompt image_description people_count
      previous_fragment
    let model := if agent_name = "agent3" then AGENT3_MODEL else AGENT2_MODEL
    match enh (fragment_num - 1) with
    | .ok p it ot =>
      let cost := calculate_cost model it ot
      let finfo : FragmentInfo :=
        { fragment_number := fragment_num
          time_range := time_range
          agent_used := agent_name
          prompt := p
          user_message := user_message
          cost := cost
          demo_note := if fragment_num > 1 then some DEMO_NOTE else none }
      let next := frag_loop enh agent_name user_prompt image_description people_count
        (fragment_num + 1) (acc ++ [finfo]) (frag_costs ++ [cost]) (tot.add cost) remaining
      (next.1 + 1, next.2)
    | .upstream e => (1, .error (ext_error_message (ExtResult.upstream (α := String) e)))
    | .malformed e => (1, .error (ext_error_message (ExtResult.malformed (α := String) e)))

/-- backend.py `run_pipeline` (lines 418–617): validation, Agent 1 call,
routing, blocked short-circuit or fragment loop, cost finalization, and the
update of the `latest_result` slot (`latest0` is the slot's prior value). -/
def run_pipeline (env : Env) (latest0 : Option PipelineResult) (req : Request) : RunOutcome :=
  match validate req with
  | .error (s, m) => ⟨s, some m, none, 0, 0, latest0⟩
  | .ok v =>
    match env.api_key with
    | none =>
      ⟨500, some "XAI_API_KEY environment variable is not set", none, 0, 0, latest0⟩
    | some _ =>
      let num_fragments := (v.duration / FRAGMENT_LENGTH).toNat
      match env.agent1 with
      | .upstream e =>
        ⟨500, some (ext_error_message (ExtResult.upstream (α := Agent1Result) e)), none, 1, 0,
          latest0⟩
      | .malformed e =>
        ⟨500, some (ext_error_message (ExtResult.malformed (α := Agent1Result) e)), none, 1, 0,
          latest0⟩
      | .ok agent1_result it ot =>
        let agent1_cost := calculate_cost AGENT1_MODEL it ot
        let tot0 := Totals.init.add agent1_cost
        let routing := determine_route agent1_result
        if routing.agent = "blocked" then
          let result : PipelineResult :=
            { duration := v.duration
              num_fragments := num_fragments
              agent1_result := agent1_result
              routing := routing
              fragments := []
              costs :=
                { agent1 := agent1_cost
                  fragments := []
                  total := { tot0 with total_cost_usd := round6 tot0.total_cost_usd } }
              blocked := true
              blocked_reason := some routing.reason }
          ⟨200, none, some result, 1, 0, some result⟩
        else
          let agent_name := routing.agent
          let image_description := agent1_result.description.getD ""
          let people_count := agent1_result.people_count.getD 0
          match frag_loop env.enhancer agent_name v.user_prompt image_description
              people_count 1 [] [] tot0 num_fragments with
          | (calls, .error e) => ⟨500, some e, none, 1, calls, latest0⟩
          | (calls, .ok (frags, frag_costs, tot)) =>
            let result : PipelineResult :=
              { duration := v.duration
                num_fragments := num_fragments
                agent1_result := agent1_result
                routing := routing
                fragments := frags
                costs :=
                  { agent1 := agent1_cost
                    fragments := frag_costs
                    total := { tot with total_cost_usd := round6 tot.total_cost_usd } }
                blocked := false
                blocked_reason := none }
            ⟨200, none, some result, 1, calls, some result⟩

/-! ## Helper lemmas -/

/-- Strings embedded between two fixed strings can be recovered: the reason
format of the blocked route is injective in the classification value. -/
lemma string_infix_cancel (a s t b c d : String)
    (h : a ++ s ++ b ++ c ++ d = a ++ t ++ b ++ c ++ d) : s = t := by
  apply String.ext
  have h2 : (a ++ s ++ b ++ c ++ d).data = (a ++ t ++ b ++ c ++ d).data := by rw [h]
  simp only [String.data_append, List.append_assoc] at h2
  exact List.append_cancel_right (List.append_cancel_left h2)

/-- `round6` never moves a value by more than half of the sixth decimal. -/
lemma abs_round6_sub (x : ℚ) : |round6 x - x| ≤ 1 / 2000000 := by
  unfold round6
  have h : |(round (x * 1000000) : ℚ) - x * 1000000| ≤ 1 / 2 := by
    rw [abs_sub_comm]; exact abs_sub_round (x * 1000000)
  have heq : (round (x * 1000000) : ℚ) / 1000000 - x =
      ((round (x * 1000000) : ℚ) - x * 1000000) / 1000000 := by ring
  rw [heq, abs_div]
  rw [abs_of_pos (by norm_num : (0:ℚ) < 1000000)]
  rw [div_le_iff₀ (by norm_num : (0:ℚ) < 1000000)]
  norm_num at h ⊢
  linarith

/-- `round6` is idempotent: a value already rounded to six decimals is a
multiple of 10⁻⁶ and rounds to itself. -/
lemma round6_round6 (x : ℚ) : round6 (round6 x) = round6 x := by
  unfold round6
  rw [div_mul_cancel₀ _ (by norm_num : (1000000 : ℚ) ≠ 0)]
  rw [round_intCast]

/-- A validation failure produces exactly the corresponding error response
before anything else in the handler runs. -/
lemma run_pipeline_validate_error (env : Env) (latest0 : Option PipelineResult)
    (req : Request) (s : Nat) (m : String) (h : validate req = .error (s, m)) :
    run_pipeline env latest0 req = ⟨s, some m, none, 0, 0, latest0⟩ := by
  unfold run_pipeline
  rw [h]

/-- Validation only ever rejects with status 400 or 500. -/
lemma validate_error_status (req : Request) (s : Nat) (m : String)
    (h : validate req = .error (s, m)) : s = 400 ∨ s = 500 := by
  simp only [validate] at h
  repeat' split at h
  any_goals exact Except.noConfusion h
  all_goals
    injection h with h1
    injection h1 with h2 h3
    omega

/-- What validation guarantees about its accepted inputs. -/
lemma validate_ok (req : Request) (v : ValidInput) (h : validate req = .ok v) :
    v.duration ∈ VIDEO_DURATIONS ∧ v.user_prompt = pyStrip req.prompt ∧
      req.image = some v.image := by
  simp only [validate] at h
  repeat' split at h
  any_goals exact Except.noConfusion h
  injection h with h1
  subst h1
  refine ⟨not_not.mp (by assumption), rfl, by assumption⟩

/-- The model chosen by `run_prompt_enhancer` for a path (lines 329–336). -/
def enhancer_model (agent_name : String) : String :=
  if agent_name = "agent3" then AGENT3_MODEL else AGENT2_MODEL

/-- The first fragment produced by the loop when the first enhancement call
returns `p` with usage `(it, ot)`: numbered 1, covering 0–5 sec, with no
continuation context and no demo note. -/
def first_fragment (an up ds : String) (pc : Int) (p : String) (it ot : Nat) : FragmentInfo :=
  { fragment_number := 1
    time_range := "0-5 sec"
    agent_used := an
    prompt := p
    user_message := build_user_message up ds pc none
    cost := calculate_cost (enhancer_model an) it ot
    demo_note := none }

/-- The second fragment produced by the loop: numbered 2, covering
5–10 sec, with the first fragment's prompt and time range as continuation
context, and carrying the demo-mode note. -/
def second_fragment (an up ds : String) (pc : Int) (p1 p2 : String) (it ot : Nat) :
    FragmentInfo :=
  { fragment_number := 2
    time_range := "5-10 sec"
    agent_used := an
    prompt := p2
    user_message := build_user_message up ds pc (some ⟨p1, "0-5 sec"⟩)
    cost := calculate_cost (enhancer_model an) it ot
    demo_note := some DEMO_NOTE }

/-- One-fragment run of the loop, fully evaluated. -/
lemma frag_loop_one_ok (enh : Nat → ExtResult String) (an up ds : String) (pc : Int)
    (tot : Totals) (p : String) (it ot : Nat) (henh : enh 0 = .ok p it ot) :
    frag_loop enh an up ds pc 1 [] [] tot 1 =
      (1, .ok ([first_fragment an up ds pc p it ot],
        [calculate_cost (enhancer_model an) it ot],
        tot.add (calculate_cost (enhancer_model an) it ot))) := by
  simp only [frag_loop, henh, first_fragment, enhancer_model]
  rfl

/-- Two-fragment run of the loop, fully evaluated: the second iteration
takes the first fragment as its continuation context. -/
lemma frag_loop_two_ok (enh : Nat → ExtResult String) (an up ds : String) (pc : Int)
    (tot : Totals) (p1 p2 : String) (it1 ot1 it2 ot2 : Nat)
    (h0 : enh 0 = .ok p1 it1 ot1) (h1 : enh 1 = .ok p2 it2 ot2) :
    frag_loop enh an up ds pc 1 [] [] tot 2 =
      (2, .ok ([first_fragment an up ds pc p1 it1 ot1,
          second_fragment an up ds pc p1 p2 it2 ot2],
        [calculate_cost (enhancer_model an) it1 ot1,
          calculate_cost (enhancer_model an) it2 ot2],
        (tot.add (calculate_cost (enhancer_model an) it1 ot1)).add
          (calculate_cost (enhancer_model an) it2 ot2))) := by
  simp only [frag_loop, h0, h1, first_fragment, second_fragment, enhancer_model]
  rfl

/-- A failed first call aborts the one-fragment loop. -/
lemma frag_loop_one_err (enh : Nat → ExtResult String) (an up ds : String) (pc : Int)
    (tot : Totals) (h1 : ∀ p it ot, enh 0 ≠ .ok p it ot) :
    ∃ e, (frag_loop enh an up ds pc 1 [] [] tot 1).2 = .error e := by
  rcases henh : enh 0 with p | e | e
  · exact absurd henh (h1 p _ _)
  · exact ⟨ext_error_message (ExtResult.upstream (α := String) e),
      by simp only [frag_loop, henh]⟩
  · exact ⟨ext_error_message (ExtResult.malformed (α := String) e),
      by simp only [frag_loop, henh]⟩

/-- A failed first call aborts the two-fragment loop. -/
lemma frag_loop_two_fst_err (enh : Nat → ExtResult String) (an up ds : String) (pc : Int)
    (tot : Totals) (h1 : ∀ p it ot, enh 0 ≠ .ok p it ot) :
    ∃ e, (frag_loop enh an up ds pc 1 [] [] tot 2).2 = .error e := by
  rcases henh : enh 0 with p | e | e
  · exact absurd henh (h1 p _ _)
  · exact ⟨ext_error_message (ExtResult.upstream (α := String) e),
      by simp only [frag_loop, henh]⟩
  · exact ⟨ext_error_message (ExtResult.malformed (α := String) e),
      by simp only [frag_loop, henh]⟩

/-- A second-call failure aborts the two-fragment loop. -/
lemma frag_loop_two_snd_err (enh : Nat → ExtResult String) (an up ds : String) (pc : Int)
    (tot : Totals) (p1 : String) (it1 ot1 : Nat) (h0 : enh 0 = .ok p1 it1 ot1)
    (h1 : ∀ p it ot, enh 1 ≠ .ok p it ot) :
    ∃ e, (frag_loop enh an up ds pc 1 [] [] tot 2).2 = .error e := by
  rcases henh : enh 1 with p | e | e
  · exact absurd henh (h1 p _ _)
  · exact ⟨ext_error_message (ExtResult.upstream (α := String) e),
      by simp only [frag_loop, h0, henh]⟩
  · exact ⟨ext_error_message (ExtResult.malformed (α := String) e),
      by simp only [frag_loop, h0, henh]⟩

/-- The result assembled on the blocked short-circuit path (lines 509–525). -/
def blocked_result (v : ValidInput) (a1 : Agent1Result) (it ot : Nat) : PipelineResult :=
  { duration := v.duration
    num_fragments := (v.duration / FRAGMENT_LENGTH).toNat
    agent1_result := a1
    routing := determine_route a1
    fragments := []
    costs :=
      { agent1 := calculate_cost AGENT1_MODEL it ot
        fragments := []
        total :=
          { Totals.init.add (calculate_cost AGENT1_MODEL it ot) with
            total_cost_usd :=
              round6 (Totals.init.add (calculate_cost AGENT1_MODEL it ot)).total_cost_usd } }
    blocked := true
    blocked_reason := some (determine_route a1).reason }

/-- The result assembled after a successful fragment loop (lines 585–603). -/
def success_result (v : ValidInput) (a1 : Agent1Result) (it ot : Nat)
    (frags : List FragmentInfo) (frag_costs : List CostRecord) (t : Totals) : PipelineResult :=
  { duration := v.duration
    num_fragments := (v.duration / FRAGMENT_LENGTH).toNat
    agent1_result := a1
    routing := determine_route a1
    fragments := frags
    costs :=
      { agent1 := calculate_cost AGENT1_MODEL it ot
        fragments := frag_costs
        total := { t with total_cost_usd := round6 t.total_cost_usd } }
    blocked := false
    blocked_reason := none }

/-- Exhaustive characterization of one `/run` request: exactly one of the
seven control paths of the handler is taken, and each fully determines the
outcome. -/
lemma run_pipeline_shape (env : Env) (latest0 : Option PipelineResult) (req : Request) :
    (∃ s m, validate req = .error (s, m) ∧
      run_pipeline env latest0 req = ⟨s, some m, none, 0, 0, latest0⟩) ∨
    (∃ v, validate req = .ok v ∧ env.api_key = none ∧
      run_pipeline env latest0 req =
        ⟨500, some "XAI_API_KEY environment variable is not set", none, 0, 0, latest0⟩) ∨
    (∃ v e, validate req = .ok v ∧ env.api_key ≠ none ∧ env.agent1 = .upstream e ∧
      run_pipeline env latest0 req =
        ⟨500, some ("Pipeline failed: " ++ e), none, 1, 0, latest0⟩) ∨
    (∃ v e, validate req = .ok v ∧ env.api_key ≠ none ∧ env.agent1 = .malformed e ∧
      run_pipeline env latest0 req =
        ⟨500, some ("Failed to parse JSON response: " ++ e), none, 1, 0, latest0⟩) ∨
    (∃ v a1 it ot, validate req = .ok v ∧ env.api_key ≠ none ∧ env.agent1 = .ok a1 it ot ∧
      (determine_route a1).agent = "blocked" ∧
      run_pipeline env latest0 req =
        ⟨200, none, some (blocked_result v a1 it ot), 1, 0, some (blocked_result v a1 it ot)⟩) ∨
    (∃ v a1 it ot calls frags frag_costs t,
      validate req = .ok v ∧ env.api_key ≠ none ∧ env.agent1 = .ok a1 it ot ∧
      (determine_route a1).agent ≠ "blocked" ∧
      frag_loop env.enhancer (determine_route a1).agent v.user_prompt
        (a1.description.getD "") (a1.people_count.getD 0) 1 [] []
        (Totals.init.add (calculate_cost AGENT1_MODEL it ot))
        ((v.duration / FRAGMENT_LENGTH).toNat) = (calls, .ok (frags, frag_costs, t)) ∧
      run_pipeline env latest0 req =
        ⟨200, none, some (success_result v a1 it ot frags frag_costs t), 1, calls,
          some (success_result v a1 it ot frags frag_costs t)⟩) ∨
    (∃ v a1 it ot calls e,
      validate req = .ok v ∧ env.api_key ≠ none ∧ env.agent1 = .ok a1 it ot ∧
      (determine_route a1).agent ≠ "blocked" ∧
      frag_loop env.enhancer (determine_route a1).agent v.user_prompt
        (a1.description.getD "") (a1.people_count.getD 0) 1 [] []
        (Totals.init.add (calculate_cost AGENT1_MODEL it ot))
        ((v.duration / FRAGMENT_LENGTH).toNat) = (calls, .error e) ∧
      run_pipeline env latest0 req = ⟨500, some e, none, 1, calls, latest0⟩) := by
  unfold run_pipeline
  dsimp only
  split
  · rename_i s m heq
    exact .inl ⟨s, m, heq, rfl⟩
  · rename_i v heq
    split
    · rename_i hkey
      exact .inr (.inl ⟨v, heq, hkey, rfl⟩)
    · rename_i key hkey
      have hkey2 : env.api_key ≠ none := by rw [hkey]; simp
      split
      · rename_i e hag
        exact .inr (.inr (.inl ⟨v, e, heq, hkey2, hag, rfl⟩))
      · rename_i e hag
        exact .inr (.inr (.inr (.inl ⟨v, e, heq, hkey2, hag, rfl⟩)))
      · rename_i a1 it ot hag
        split
        · rename_i hb
          exact .inr (.inr (.inr (.inr (.inl ⟨v, a1, it, ot, heq, hkey2, hag, hb, rfl⟩))))
        · rename_i hb
          split
          · rename_i calls e hloop
            exact .inr (.inr (.inr (.inr (.inr (.inr
              ⟨v, a1, it, ot, calls, e, heq, hkey2, hag, hb, hloop, rfl⟩)))))
          · rename_i calls frags frag_costs t hloop
            exact .inr (.inr (.inr (.inr (.inr (.inl
              ⟨v, a1, it, ot, calls, frags, frag_costs, t, heq, hkey2, hag, hb, hloop,
                rfl⟩)))))

/-- The totals right after the analysis call (lines 474–498). -/
def tot0 (it ot : Nat) : Totals := Totals.init.add (calculate_cost AGENT1_MODEL it ot)

/-- Full dissection of a successful non-blocked run: the validated duration
is 5 or 10, and the result carries exactly one or two fully-determined
fragments. -/
lemma run_success_cases (env : Env) (latest0 : Option PipelineResult) (req : Request)
    (r : PipelineResult) (h : (run_pipeline env latest0 req).result = some r)
    (hnb : r.blocked = false) :
    ∃ v a1 it ot, validate req = .ok v ∧ v.user_prompt = pyStrip req.prompt ∧
      (determine_route a1).agent ≠ "blocked" ∧
      ((v.duration = 5 ∧ ∃ p1 it1 ot1, env.enhancer 0 = .ok p1 it1 ot1 ∧
        r = success_result v a1 it ot
          [first_fragment (determine_route a1).agent v.user_prompt
            (a1.description.getD "") (a1.people_count.getD 0) p1 it1 ot1]
          [calculate_cost (enhancer_model (determine_route a1).agent) it1 ot1]
          ((tot0 it ot).add
            (calculate_cost (enhancer_model (determine_route a1).agent) it1 ot1))) ∨
      (v.duration = 10 ∧ ∃ p1 it1 ot1 p2 it2 ot2,
        env.enhancer 0 = .ok p1 it1 ot1 ∧ env.enhancer 1 = .ok p2 it2 ot2 ∧
        r = success_result v a1 it ot
          [first_fragment (determine_route a1).agent v.user_prompt
            (a1.description.getD "") (a1.people_count.getD 0) p1 it1 ot1,
          second_fragment (determine_route a1).agent v.user_prompt
            (a1.description.getD "") (a1.people_count.getD 0) p1 p2 it2 ot2]
          [calculate_cost (enhancer_model (determine_route a1).agent) it1 ot1,
          calculate_cost (enhancer_model (determine_route a1).agent) it2 ot2]
          (((tot0 it ot).add
              (calculate_cost (enhancer_model (determine_route a1).agent) it1 ot1)).add
            (calculate_cost (enhancer_model (determine_route a1).agent) it2 ot2)))) := by
  rcases run_pipeline_shape env latest0 req with
    ⟨s, m, hv, hout⟩ | ⟨v, hv, hk, hout⟩ | ⟨v, e, hv, hk, ha, hout⟩ |
    ⟨v, e, hv, hk, ha, hout⟩ | ⟨v, a1, it, ot, hv, hk, ha, hb, hout⟩ |
    ⟨v, a1, it, ot, calls, frags, frag_costs, t, hv, hk, ha, hb, hloop, hout⟩ |
    ⟨v, a1, it, ot, calls, e, hv, hk, ha, hb, hloop, hout⟩
  · rw [hout] at h; exact absurd h (by simp)
  · rw [hout] at h; exact absurd h (by simp)
  · rw [hout] at h; exact absurd h (by simp)
  · rw [hout] at h; exact absurd h (by simp)
  · rw [hout] at h
    simp only [Option.some.injEq] at h
    rw [← h] at hnb
    exact absurd hnb (by simp [blocked_result])
  · rw [hout] at h
    simp only [Option.some.injEq] at h
    obtain ⟨hdur, hup, himg⟩ := validate_ok req v hv
    refine ⟨v, a1, it, ot, hv, hup, hb, ?_⟩
    have hd2 : v.duration = 5 ∨ v.duration = 10 := by
      simpa [VIDEO_DURATIONS] using hdur
    rcases hd2 with hd5 | hd10
    · left
      refine ⟨hd5, ?_⟩
      rw [hd5] at hloop
      rw [show ((5 : Int) / FRAGMENT_LENGTH).toNat = 1 from rfl] at hloop
      rcases henh : env.enhancer 0 with ⟨p1, it1, ot1⟩ | e | e
      · rw [frag_loop_one_ok env.enhancer (determine_route a1).agent v.user_prompt
          (a1.description.getD "") (a1.people_count.getD 0)
          (Totals.init.add (calculate_cost AGENT1_MODEL it ot)) p1 it1 ot1 henh] at hloop
        injection hloop with hc hrest
        injection hrest with hfr
        have h1 := congrArg Prod.fst hfr
        have h2 := congrArg (fun x => x.2.1) hfr
        have h3 := congrArg (fun x => x.2.2) hfr
        dsimp only at h1 h2 h3
        exact ⟨p1, it1, ot1, rfl, by rw [← h, ← h1, ← h2, ← h3]; rfl⟩
      · rcases frag_loop_one_err env.enhancer (determine_route a1).agent v.user_prompt
          (a1.description.getD "") (a1.people_count.getD 0)
          (Totals.init.add (calculate_cost AGENT1_MODEL it ot))
          (fun p q s hq => by rw [henh] at hq; exact ExtResult.noConfusion hq) with ⟨e2, he2⟩
        rw [hloop] at he2
        exact absurd he2 (by simp)
      · rcases frag_loop_one_err env.enhancer (determine_route a1).agent v.user_prompt
          (a1.description.getD "") (a1.people_count.getD 0)
          (Totals.init.add (calculate_cost AGENT1_MODEL it ot))
          (fun p q s hq => by rw [henh] at hq; exact ExtResult.noConfusion hq) with ⟨e2, he2⟩
        rw [hloop] at he2
        exact absurd he2 (by simp)
    · right
      refine ⟨hd10, ?_⟩
      rw [hd10] at hloop
      rw [show ((10 : Int) / FRAGMENT_LENGTH).toNat = 2 from rfl] at hloop
      rcases henh : env.enhancer 0 with ⟨p1, it1, ot1⟩ | e | e
      · rcases henh1 : env.enhancer 1 with ⟨p2, it2, ot2⟩ | e | e
        · rw [frag_loop_two_ok env.enhancer (determine_route a1).agent v.user_prompt
            (a1.description.getD "") (a1.people_count.getD 0)
            (Totals.init.add (calculate_cost AGENT1_MODEL it ot)) p1 p2 it1 ot1 it2 ot2
            henh henh1] at hloop
          injection hloop with hc hrest
          injection hrest with hfr
          have h1 := congrArg Prod.fst hfr
          have h2 := congrArg (fun x => x.2.1) hfr
          have h3 := congrArg (fun x => x.2.2) hfr
          dsimp only at h1 h2 h3
          exact ⟨p1, it1, ot1, p2, it2, ot2, rfl, rfl,
            by rw [← h, ← h1, ← h2, ← h3]; rfl⟩
        · rcases frag_loop_two_snd_err env.enhancer (determine_route a1).agent v.user_prompt
            (a1.description.getD "") (a1.people_count.getD 0)
            (Totals.init.add (calculate_cost AGENT1_MODEL it ot)) p1 it1 ot1 henh
            (fun p q s hq => by rw [henh1] at hq; exact ExtResult.noConfusion hq) with ⟨e2, he2⟩
          rw [hloop] at he2
          exact absurd he2 (by simp)
        · rcases frag_loop_two_snd_err env.enhancer (determine_route a1).agent v.user_prompt
            (a1.description.getD "") (a1.people_count.getD 0)
            (Totals.init.add (calculate_cost AGENT1_MODEL it ot)) p1 it1 ot1 henh
            (fun p q s hq => by rw [henh1] at hq; exact ExtResult.noConfusion hq) with ⟨e2, he2⟩
          rw [hloop] at he2
          exact absurd he2 (by simp)
      · rcases frag_loop_two_fst_err env.enhancer (determine_route a1).agent v.user_prompt
          (a1.description.getD "") (a1.people_count.getD 0)
          (Totals.init.add (calculate_cost AGENT1_MODEL it ot))
          (fun p q s hq => by rw [henh] at hq; exact ExtResult.noConfusion hq) with ⟨e2, he2⟩
        rw [hloop] at he2
        exact absurd he2 (by simp)
      · rcases frag_loop_two_fst_err env.enhancer (determine_route a1).agent v.user_prompt
          (a1.description.getD "") (a1.people_count.getD 0)
          (Totals.init.add (calculate_cost AGENT1_MODEL it ot))
          (fun p q s hq => by rw [henh] at hq; exact ExtResult.noConfusion hq) with ⟨e2, he2⟩
        rw [hloop] at he2
        exact absurd he2 (by simp)
  · rw [hout] at h; exact absurd h (by simp)

/-! ## Claim theorems -/

/-- C1: in NSFW-conditional routing mode (the configured mode,
`ROUTE_TO_ADULT_WHEN_NSFW = true`), `nsfw = false` routes to the neutral
path with the gate not applied (`gate_applied = false`,
`gate_passed = none`) regardless of the minor classification;
`nsfw = true` with `minor_under_16 = "no"` routes to the adult path with
the gate applied and passed; `nsfw = true` with a classification outside
the allow-list is blocked. -/
theorem determine_route_nsfw_conditional (r : Agent1Result) :
    (r.nsfw.getD false = false →
      determine_route r =
        ⟨"agent2", false, none, "Neutral content: routed to safe enhancer"⟩) ∧
    (r.nsfw.getD false = true → r.minor_under_16.getD "unclear" = "no" →
      (determine_route r).agent = "agent3" ∧ (determine_route r).gate_applied = true ∧
        (determine_route r).gate_passed = some true) ∧
    (r.nsfw.getD false = true → r.minor_under_16.getD "unclear" ∉ GATE_ALLOWED_VALUES →
      (determine_route r).agent = "blocked" ∧ (determine_route r).gate_applied = true ∧
        (determine_route r).gate_passed = some false) := by
  unfold determine_route
  refine ⟨fun h => ?_, fun h hm => ?_, fun h hm => ?_⟩
  · rw [h]; rfl
  · rw [h, hm]; exact ⟨rfl, rfl, rfl⟩
  · rw [h]
    simp only [ROUTE_TO_ADULT_WHEN_NSFW, Bool.and_true]
    rw [if_pos hm]
    exact ⟨rfl, rfl, rfl⟩

/-- Closed instance of C1 at concrete analysis results. -/
theorem determine_route_nsfw_conditional_witness :
    determine_route ⟨some 2, some "yes", some false, some "d"⟩ =
      ⟨"agent2", false, none, "Neutral content: routed to safe enhancer"⟩ ∧
    (determine_route ⟨some 1, some "no", some true, some "d"⟩).agent = "agent3" ∧
    (determine_route ⟨some 1, some "yes", some true, some "d"⟩).agent = "blocked" :=
  ⟨(determine_route_nsfw_conditional ⟨some 2, some "yes", some false, some "d"⟩).1 rfl,
    ((determine_route_nsfw_conditional ⟨some 1, some "no", some true, some "d"⟩).2.1
      rfl rfl).1,
    ((determine_route_nsfw_conditional ⟨some 1, some "yes", some true, some "d"⟩).2.2
      rfl (by decide)).1⟩

/-- C2: whenever the safety gate blocks, the block reason embeds the
offending classification value, so any two distinct blocking
classifications — e.g. the explicit positive `"yes"` and the ambiguous
`"unclear"` — both block but are reported with different reasons. -/
theorem gate_block_reasons_distinguish (pc : Option Int) (d : Option String) (s t : String)
    (hs : s ∉ GATE_ALLOWED_VALUES) (ht : t ∉ GATE_ALLOWED_VALUES) (hst : s ≠ t) :
    (determine_route ⟨pc, some s, some true, d⟩).agent = "blocked" ∧
    (determine_route ⟨pc, some t, some true, d⟩).agent = "blocked" ∧
    (determine_route ⟨pc, some s, some true, d⟩).reason ≠
      (determine_route ⟨pc, some t, some true, d⟩).reason := by
  unfold determine_route
  simp only [Option.getD_some, ROUTE_TO_ADULT_WHEN_NSFW, Bool.and_true, if_true,
    if_pos hs, if_pos ht]
  refine ⟨trivial, trivial, fun h => hst ?_⟩
  exact string_infix_cancel "Adult content blocked: minor_under_16=\x27" s t
    "\x27 (requires: " (pyListRepr GATE_ALLOWED_VALUES) ")" h

/-- Closed instance of C2 at the classifications `"yes"` and `"unclear"`. -/
theorem gate_block_reasons_distinguish_witness :
    (determine_route ⟨some 1, some "yes", some true, none⟩).agent = "blocked" ∧
    (determine_route ⟨some 1, some "unclear", some true, none⟩).agent = "blocked" ∧
    (determine_route ⟨some 1, some "yes", some true, none⟩).reason ≠
      (determine_route ⟨some 1, some "unclear", some true, none⟩).reason :=
  gate_block_reasons_distinguish (some 1) none "yes" "unclear"
    (by decide) (by decide) (by decide)

/-- C6: for every model and token pair, the record's reported total is the
rounding of the exact input-plus-output cost, so it matches the sum of the
reported input and output costs to rounding precision (within 3·10⁻⁶/2);
the pricing actually used is the table entry when the model is present and
the default fallback pair (0.20, 0.50) when it is absent; the computation
is total — it always returns a record with the tokens accounted for. -/
theorem calculate_cost_spec (model : String) (i o : Nat) :
    (calculate_cost model i o).total_cost_usd = round6 (exact_total_cost model i o) ∧
    |(calculate_cost model i o).total_cost_usd -
        ((calculate_cost model i o).input_cost_usd +
          (calculate_cost model i o).output_cost_usd)| ≤ 3 / 2000000 ∧
    (∀ p, MODEL_PRICING model = some p → (calculate_cost model i o).pricing = p) ∧
    (MODEL_PRICING model = none → (calculate_cost model i o).pricing = ⟨1/5, 1/2⟩) ∧
    (calculate_cost model i o).total_tokens = i + o := by
  refine ⟨rfl, ?_, fun p hp => ?_, fun hp => ?_, rfl⟩
  · show |round6 (exact_input_cost model i + exact_output_cost model o) -
      (round6 (exact_input_cost model i) + round6 (exact_output_cost model o))| ≤ 3 / 2000000
    have ha := abs_round6_sub (exact_input_cost model i + exact_output_cost model o)
    have hb := abs_round6_sub (exact_input_cost model i)
    have hc := abs_round6_sub (exact_output_cost model o)
    rw [abs_le] at ha hb hc ⊢
    constructor <;> linarith [ha.1, ha.2, hb.1, hb.2, hc.1, hc.2]
  · show get_model_pricing model = p
    unfold get_model_pricing
    rw [hp]; rfl
  · show get_model_pricing model = ⟨1/5, 1/2⟩
    unfold get_model_pricing
    rw [hp]; rfl

/-- Closed instance of C6: an unknown model uses the fallback pricing and
the reported total is the rounded exact total. -/
theorem calculate_cost_spec_witness :
    (calculate_cost "some-unknown-model" 3 7).total_cost_usd =
      round6 (exact_total_cost "some-unknown-model" 3 7) ∧
    (calculate_cost "some-unknown-model" 3 7).pricing = ⟨1/5, 1/2⟩ :=
  ⟨(calculate_cost_spec "some-unknown-model" 3 7).1,
    (calculate_cost_spec "some-unknown-model" 3 7).2.2.2.1 (by decide)⟩

/-- C9: a failed request (validation, configuration, upstream or
malformed-response error — every non-200 outcome) leaves the process-wide
latest-result slot exactly as it was, and a successful request (200,
including the blocked outcome) overwrites the slot with precisely the
result it returns. -/
theorem latest_slot_only_overwritten_on_success (env : Env)
    (latest0 : Option PipelineResult) (req : Request) :
    ((run_pipeline env latest0 req).status ≠ 200 →
      (run_pipeline env latest0 req).latest = latest0) ∧
    ((run_pipeline env latest0 req).status = 200 →
      (run_pipeline env latest0 req).latest = (run_pipeline env latest0 req).result ∧
        (run_pipeline env latest0 req).result ≠ none) := by
  unfold run_pipeline
  dsimp only
  repeat' split
  all_goals refine ⟨fun h => ?_, fun h => ?_⟩
  all_goals try dsimp only at h ⊢
  all_goals first
    | rfl
    | exact ⟨rfl, by simp⟩
    | exact absurd rfl h
    | exact absurd h (by decide)
    | (exfalso
       rcases validate_error_status _ _ _ (by assumption) with h4 | h4 <;> omega)

/-- Closed instance of C9: a validation failure preserves a previously
stored result, and a blocked run stores its own result. -/
theorem latest_slot_witness :
    (run_pipeline ⟨none, .ok ⟨some 1, some "no", some false, some "d"⟩ 0 0,
        fun _ => .ok "p" 0 0⟩
      none ⟨none, "hello", none⟩).latest = none :=
  (latest_slot_only_overwritten_on_success
    ⟨none, .ok ⟨some 1, some "no", some false, some "d"⟩ 0 0, fun _ => .ok "p" 0 0⟩
    none ⟨none, "hello", none⟩).1 (by decide)

/-- C3: a request whose routing decision is blocked short-circuits: the
returned result has an empty fragment list, no per-fragment cost records,
the accumulated cost total is exactly the analysis call's cost, and no
enhancement call is issued. -/
theorem blocked_requests_short_circuit (env : Env) (latest0 : Option PipelineResult)
    (req : Request) (r : PipelineResult)
    (h : (run_pipeline env latest0 req).result = some r)
    (hb : r.routing.agent = "blocked") :
    r.blocked = true ∧ r.fragments = [] ∧ r.costs.fragments = [] ∧
    r.costs.total.total_cost_usd = r.costs.agent1.total_cost_usd ∧
    (run_pipeline env latest0 req).enhancer_calls = 0 := by
  rcases run_pipeline_shape env latest0 req with
    ⟨s, m, hv, hout⟩ | ⟨v, hv, hk, hout⟩ | ⟨v, e, hv, hk, ha, hout⟩ |
    ⟨v, e, hv, hk, ha, hout⟩ | ⟨v, a1, it, ot, hv, hk, ha, hbl, hout⟩ |
    ⟨v, a1, it, ot, calls, frags, frag_costs, t, hv, hk, ha, hbl, hloop, hout⟩ |
    ⟨v, a1, it, ot, calls, e, hv, hk, ha, hbl, hloop, hout⟩
  · rw [hout] at h; exact absurd h (by simp)
  · rw [hout] at h; exact absurd h (by simp)
  · rw [hout] at h; exact absurd h (by simp)
  · rw [hout] at h; exact absurd h (by simp)
  · rw [hout] at h
    simp only [Option.some.injEq] at h
    subst h
    refine ⟨rfl, rfl, rfl, ?_, by rw [hout]⟩
    show round6 ((Totals.init.add (calculate_cost AGENT1_MODEL it ot)).total_cost_usd) =
      (calculate_cost AGENT1_MODEL it ot).total_cost_usd
    show round6 (0 + (calculate_cost AGENT1_MODEL it ot).total_cost_usd) =
      (calculate_cost AGENT1_MODEL it ot).total_cost_usd
    rw [zero_add]
    exact round6_round6 _
  · rw [hout] at h
    simp only [Option.some.injEq] at h
    subst h
    exact absurd hb hbl
  · rw [hout] at h; exact absurd h (by simp)

/-- Closed instance of C3: an NSFW image with `minor_under_16 = "yes"`
blocks, yields no fragments, and is charged only the analysis call. -/
theorem blocked_requests_short_circuit_witness :
    (blocked_result ⟨⟨"image/jpeg", 100⟩, "hello", 5⟩ ⟨some 1, some "yes", some true, some "d"⟩
        3 4).blocked = true ∧
    (blocked_result ⟨⟨"image/jpeg", 100⟩, "hello", 5⟩ ⟨some 1, some "yes", some true, some "d"⟩
        3 4).fragments = [] ∧
    (blocked_result ⟨⟨"image/jpeg", 100⟩, "hello", 5⟩ ⟨some 1, some "yes", some true, some "d"⟩
        3 4).costs.fragments = [] ∧
    (blocked_result ⟨⟨"image/jpeg", 100⟩, "hello", 5⟩ ⟨some 1, some "yes", some true, some "d"⟩
        3 4).costs.total.total_cost_usd =
      (blocked_result ⟨⟨"image/jpeg", 100⟩, "hello", 5⟩ ⟨some 1, some "yes", some true, some "d"⟩
        3 4).costs.agent1.total_cost_usd ∧
    (run_pipeline ⟨some "k", .ok ⟨some 1, some "yes", some true, some "d"⟩ 3 4,
        fun _ => .ok "p" 0 0⟩ none
      ⟨some ⟨"image/jpeg", 100⟩, "hello", some "5"⟩).enhancer_calls = 0 :=
  blocked_requests_short_circuit
    ⟨some "k", .ok ⟨some 1, some "yes", some true, some "d"⟩ 3 4, fun _ => .ok "p" 0 0⟩
    none ⟨some ⟨"image/jpeg", 100⟩, "hello", some "5"⟩
    (blocked_result ⟨⟨"image/jpeg", 100⟩, "hello", 5⟩ ⟨some 1, some "yes", some true, some "d"⟩
      3 4)
    rfl rfl

/-- C4: every successful non-blocked run produces
`duration / fragmentLength` (integer division) fragments — one for a
5-second video, two for a 10-second one — and their sequence numbers are
the contiguous run 1, 2, … in creation order. -/
theorem fragment_count_and_numbering (env : Env) (latest0 : Option PipelineResult)
    (req : Request) (r : PipelineResult)
    (h : (run_pipeline env latest0 req).result = some r) (hnb : r.blocked = false) :
    r.duration ∈ VIDEO_DURATIONS ∧
    r.num_fragments = (r.duration / FRAGMENT_LENGTH).toNat ∧
    r.fragments.length = r.num_fragments ∧
    r.fragments.map (fun f => f.fragment_number) = List.range' 1 r.num_fragments ∧
    (r.duration = 5 → r.fragments.length = 1) ∧
    (r.duration = 10 → r.fragments.length = 2) := by
  obtain ⟨v, a1, it, ot, hv, hup, hnbr, hcase⟩ := run_success_cases env latest0 req r h hnb
  obtain ⟨hdur, -, -⟩ := validate_ok req v hv
  rcases hcase with ⟨hd5, p1, it1, ot1, henh, hr⟩ |
    ⟨hd10, p1, it1, ot1, p2, it2, ot2, henh0, henh1, hr⟩
  · subst hr
    refine ⟨hdur, rfl, ?_, ?_, fun _ => rfl, fun h10 => ?_⟩
    · show 1 = (v.duration / FRAGMENT_LENGTH).toNat
      rw [hd5]; rfl
    · show [1] = List.range' 1 (v.duration / FRAGMENT_LENGTH).toNat
      rw [hd5]; rfl
    · dsimp only [success_result] at h10
      rw [hd5] at h10
      exact absurd h10 (by decide)
  · subst hr
    refine ⟨hdur, rfl, ?_, ?_, fun h5 => ?_, fun _ => rfl⟩
    · show 2 = (v.duration / FRAGMENT_LENGTH).toNat
      rw [hd10]; rfl
    · show [1, 2] = List.range' 1 (v.duration / FRAGMENT_LENGTH).toNat
      rw [hd10]; rfl
    · dsimp only [success_result] at h5
      rw [hd10] at h5
      exact absurd h5 (by decide)

def w10_v : ValidInput := ⟨⟨"image/png", 5⟩, "hi", 10⟩

def w10_a1 : Agent1Result := ⟨some 2, some "unclear", some false, some "park"⟩

def w10_env : Env := ⟨some "k", .ok w10_a1 1 2, fun _ => .ok "p" 0 0⟩

def w10_req : Request := ⟨some ⟨"image/png", 5⟩, "hi", some "10"⟩

/-- The result of the concrete 10-second witness run. -/
def w10_result : PipelineResult :=
  success_result w10_v w10_a1 1 2
    [first_fragment "agent2" "hi" "park" 2 "p" 0 0,
      second_fragment "agent2" "hi" "park" 2 "p" "p" 0 0]
    [calculate_cost AGENT2_MODEL 0 0, calculate_cost AGENT2_MODEL 0 0]
    (((tot0 1 2).add (calculate_cost AGENT2_MODEL 0 0)).add (calculate_cost AGENT2_MODEL 0 0))

/-- Closed instance of C4: a 10-second run yields fragments numbered
`[1, 2]`. -/
theorem fragment_count_and_numbering_witness :
    w10_result.fragments.map (fun f => f.fragment_number) =
      List.range' 1 w10_result.num_fragments ∧
    w10_result.fragments.length = 2 :=
  ⟨(fragment_count_and_numbering w10_env none w10_req w10_result rfl rfl).2.2.2.1,
    (fragment_count_and_numbering w10_env none w10_req w10_result rfl rfl).2.2.2.2.2 rfl⟩

/-- C5: in every successful non-blocked run, fragment 1's enhancement call
message is exactly the base context (user prompt, image description,
people count — no continuation section), each later fragment's message is
built from the previous fragment's prompt and time range, and the
continuation form appends to the base context a section that states the
previous time range, quotes the previous prompt verbatim, and instructs
the model to advance the action from where the previous fragment ended. -/
theorem continuation_context (env : Env) (latest0 : Option PipelineResult)
    (req : Request) (r : PipelineResult)
    (h : (run_pipeline env latest0 req).result = some r) (hnb : r.blocked = false) :
    (∀ f, r.fragments.head? = some f →
      f.user_message = build_user_message (pyStrip req.prompt)
        (r.agent1_result.description.getD "") (r.agent1_result.people_count.getD 0) none) ∧
    List.Chain' (fun a b => b.user_message = build_user_message (pyStrip req.prompt)
      (r.agent1_result.description.getD "") (r.agent1_result.people_count.getD 0)
      (some ⟨a.prompt, a.time_range⟩)) r.fragments ∧
    (∀ up ds : String, ∀ pc : Int, ∀ pf : PrevFrag,
      build_user_message up ds pc (some pf) =
        build_user_message up ds pc none ++ "\n\n--- Previous Fragment (" ++ pf.time_range ++
          ") ---\nEnhanced prompt used: \"" ++ pf.prompt ++
          "\"\n\nGenerate the continuation for the next 5-second fragment. Advance the action naturally from where the previous fragment ended.") := by
  have hsection : ∀ up ds : String, ∀ pc : Int, ∀ pf : PrevFrag,
      build_user_message up ds pc (some pf) =
        build_user_message up ds pc none ++ "\n\n--- Previous Fragment (" ++ pf.time_range ++
          ") ---\nEnhanced prompt used: \"" ++ pf.prompt ++
          "\"\n\nGenerate the continuation for the next 5-second fragment. Advance the action naturally from where the previous fragment ended." := by
    intro up ds pc pf
    apply String.ext
    simp only [build_user_message, continuation_section, String.data_append,
      List.append_assoc]
  obtain ⟨v, a1, it, ot, hv, hup, hnbr, hcase⟩ := run_success_cases env latest0 req r h hnb
  rcases hcase with ⟨hd5, p1, it1, ot1, henh, hr⟩ |
    ⟨hd10, p1, it1, ot1, p2, it2, ot2, henh0, henh1, hr⟩
  · subst hr
    refine ⟨fun f hf => ?_, ?_, hsection⟩
    · dsimp only [success_result] at hf
      rw [show f = first_fragment (determine_route a1).agent v.user_prompt
          (a1.description.getD "") (a1.people_count.getD 0) p1 it1 ot1 by
        simpa using hf.symm]
      rw [← hup]; rfl
    · exact List.chain'_singleton _
  · subst hr
    refine ⟨fun f hf => ?_, ?_, hsection⟩
    · dsimp only [success_result] at hf
      rw [show f = first_fragment (determine_route a1).agent v.user_prompt
          (a1.description.getD "") (a1.people_count.getD 0) p1 it1 ot1 by
        simpa using hf.symm]
      rw [← hup]; rfl
    · dsimp only [success_result]
      rw [List.chain'_cons]
      refine ⟨?_, List.chain'_singleton _⟩
      rw [← hup]; rfl

/-- Closed instance of C5 at the 10-second witness run: fragment 1's
message is the plain base context, and fragment 2's message is built from
fragment 1's prompt and time range. -/
theorem continuation_context_witness :
    (first_fragment "agent2" "hi" "park" 2 "p" 0 0).user_message =
      build_user_message (pyStrip "hi") "park" 2 none ∧
    List.Chain' (fun a b => b.user_message = build_user_message (pyStrip "hi") "park" 2
      (some ⟨a.prompt, a.time_range⟩)) w10_result.fragments :=
  ⟨(continuation_context w10_env none w10_req w10_result rfl rfl).1 _ rfl,
    (continuation_context w10_env none w10_req w10_result rfl rfl).2.1⟩

/-! C7 concerns how the request-level cost total is accumulated.  Inside
one call (`calculate_cost`), input and output costs are indeed summed at
full precision before the total is rounded; but across calls the handler
accumulates the already-rounded per-call `total_cost_usd` values
(lines 498 and 592) and rounds that sum again (line 595). -/

def cx_env : Env :=
  ⟨some "k", .ok ⟨some 2, some "unclear", some false, some "d"⟩ 2 0, fun _ => .ok "p" 2 0⟩

def cx_req : Request := ⟨some ⟨"image/jpeg", 100⟩, "hello", some "5"⟩

/-- The result of the C7 counterexample run: neutral path, one fragment,
2 input tokens (and 0 output tokens) on each of the two calls. -/
def cx_result : PipelineResult :=
  success_result ⟨⟨"image/jpeg", 100⟩, "hello", 5⟩
    ⟨some 2, some "unclear", some false, some "d"⟩ 2 0
    [first_fragment "agent2" "hello" "d" 2 "p" 2 0]
    [calculate_cost AGENT2_MODEL 2 0]
    ((tot0 2 0).add (calculate_cost AGENT2_MODEL 2 0))

lemma cx_exact_agent1 : exact_total_cost AGENT1_MODEL 2 0 = 2 / 5000000 := by
  unfold exact_total_cost exact_input_cost exact_output_cost
  rw [show get_model_pricing AGENT1_MODEL = ⟨1/5, 1/2⟩ from rfl]
  norm_num

lemma cx_exact_agent2 : exact_total_cost AGENT2_MODEL 2 0 = 2 / 5000000 := by
  unfold exact_total_cost exact_input_cost exact_output_cost
  rw [show get_model_pricing AGENT2_MODEL = ⟨1/5, 1/2⟩ from rfl]
  norm_num

lemma cx_round6_small : round6 (2 / 5000000) = 0 := by
  unfold round6
  rw [show (2 / 5000000 : ℚ) * 1000000 = 2 / 5 by norm_num, round_eq]
  norm_num

/-- Counterexample to C7 as stated: with 2 input / 0 output tokens on the
analysis call and on the single enhancement call (exact cost 4·10⁻⁷ each,
rounding to 0), the stored request total is 0, but summing the two calls
at full precision before rounding would give 8·10⁻⁷, which rounds to
10⁻⁶ — so the accumulated total IS a sum of already-rounded per-call
values, not a full-precision sum. -/
theorem request_total_not_full_precision :
    ((run_pipeline cx_env none cx_req).result.map
      (fun r => r.costs.total.total_cost_usd)) = some 0 ∧
    ((run_pipeline cx_env none cx_req).result.map (fun r => r.costs.agent1)) =
      some (calculate_cost AGENT1_MODEL 2 0) ∧
    ((run_pipeline cx_env none cx_req).result.map (fun r => r.costs.fragments)) =
      some [calculate_cost AGENT2_MODEL 2 0] ∧
    round6 (exact_total_cost AGENT1_MODEL 2 0 + exact_total_cost AGENT2_MODEL 2 0) =
      1 / 1000000 ∧
    (0 : ℚ) ≠ 1 / 1000000 := by
  have hrun : (run_pipeline cx_env none cx_req).result = some cx_result := rfl
  have hA : (calculate_cost AGENT1_MODEL 2 0).total_cost_usd = 0 := by
    show round6 (exact_total_cost AGENT1_MODEL 2 0) = 0
    rw [cx_exact_agent1]; exact cx_round6_small
  have hB : (calculate_cost AGENT2_MODEL 2 0).total_cost_usd = 0 := by
    show round6 (exact_total_cost AGENT2_MODEL 2 0) = 0
    rw [cx_exact_agent2]; exact cx_round6_small
  refine ⟨?_, ?_, ?_, ?_, by norm_num⟩
  · rw [hrun]
    show some (round6 (((tot0 2 0).add (calculate_cost AGENT2_MODEL 2 0)).total_cost_usd)) =
      some 0
    show some (round6 ((0 + (calculate_cost AGENT1_MODEL 2 0).total_cost_usd) +
      (calculate_cost AGENT2_MODEL 2 0).total_cost_usd)) = some 0
    rw [hA, hB]
    norm_num
    unfold round6
    rw [zero_mul, round_zero]
    norm_num
  · rw [hrun]; rfl
  · rw [hrun]; rfl
  · rw [cx_exact_agent1, cx_exact_agent2]
    unfold round6
    rw [show (2 / 5000000 + 2 / 5000000 : ℚ) * 1000000 = 4 / 5 by norm_num, round_eq]
    norm_num

/-- C7 as amended: per-call monetary values are rounded to six decimals,
with each call's total computed from its input and output costs at full
precision before rounding; the request-level total, however, is the sum of
the already-rounded per-call totals, rounded once more at the end. -/
theorem request_total_sums_rounded_per_call (env : Env) (latest0 : Option PipelineResult)
    (req : Request) (r : PipelineResult)
    (h : (run_pipeline env latest0 req).result = some r) :
    r.costs.total.total_cost_usd =
      round6 (r.costs.agent1.total_cost_usd +
        (r.costs.fragments.map (fun c => c.total_cost_usd)).sum) ∧
    r.costs.agent1.total_cost_usd =
      round6 (exact_total_cost r.costs.agent1.model r.costs.agent1.input_tokens
        r.costs.agent1.output_tokens) ∧
    (∀ c ∈ r.costs.fragments, c.total_cost_usd =
      round6 (exact_total_cost c.model c.input_tokens c.output_tokens)) := by
  by_cases hnb : r.blocked = false
  · obtain ⟨v, a1, it, ot, hv, hup, hnbr, hcase⟩ := run_success_cases env latest0 req r h hnb
    rcases hcase with ⟨hd5, p1, it1, ot1, henh, hr⟩ |
      ⟨hd10, p1, it1, ot1, p2, it2, ot2, henh0, henh1, hr⟩
    · subst hr
      refine ⟨?_, rfl, fun c hc => ?_⟩
      · show round6 (((tot0 it ot).add
            (calculate_cost (enhancer_model (determine_route a1).agent) it1 ot1)).total_cost_usd)
          = _
        have harith : ((tot0 it ot).add
            (calculate_cost (enhancer_model (determine_route a1).agent) it1 ot1)).total_cost_usd
            = (calculate_cost AGENT1_MODEL it ot).total_cost_usd +
              (List.map (fun c => c.total_cost_usd)
                [calculate_cost (enhancer_model (determine_route a1).agent) it1 ot1]).sum := by
          dsimp only [tot0, Totals.add, Totals.init, List.map_cons, List.map_nil,
            List.sum_cons, List.sum_nil]
          ring
        rw [harith]
        rfl
      · simp only [success_result, List.mem_singleton] at hc
        subst hc
        rfl
    · subst hr
      refine ⟨?_, rfl, fun c hc => ?_⟩
      · show round6 ((((tot0 it ot).add
            (calculate_cost (enhancer_model (determine_route a1).agent) it1 ot1)).add
            (calculate_cost (enhancer_model (determine_route a1).agent) it2 ot2)).total_cost_usd)
          = _
        have harith : (((tot0 it ot).add
            (calculate_cost (enhancer_model (determine_route a1).agent) it1 ot1)).add
            (calculate_cost (enhancer_model (determine_route a1).agent) it2 ot2)).total_cost_usd
            = (calculate_cost AGENT1_MODEL it ot).total_cost_usd +
              (List.map (fun c => c.total_cost_usd)
                [calculate_cost (enhancer_model (determine_route a1).agent) it1 ot1,
                  calculate_cost (enhancer_model (determine_route a1).agent) it2 ot2]).sum := by
          dsimp only [tot0, Totals.add, Totals.init, List.map_cons, List.map_nil,
            List.sum_cons, List.sum_nil]
          ring
        rw [harith]
        rfl
      · simp only [success_result, List.mem_cons, List.mem_singleton, List.not_mem_nil,
          or_false] at hc
        rcases hc with hc | hc <;> (subst hc; rfl)
  · rcases run_pipeline_shape env latest0 req with
      ⟨s, m, hv, hout⟩ | ⟨v, hv, hk, hout⟩ | ⟨v, e, hv, hk, ha, hout⟩ |
      ⟨v, e, hv, hk, ha, hout⟩ | ⟨v, a1, it, ot, hv, hk, ha, hbl, hout⟩ |
      ⟨v, a1, it, ot, calls, frags, frag_costs, t, hv, hk, ha, hbl, hloop, hout⟩ |
      ⟨v, a1, it, ot, calls, e, hv, hk, ha, hbl, hloop, hout⟩
    · rw [hout] at h; exact absurd h (by simp)
    · rw [hout] at h; exact absurd h (by simp)
    · rw [hout] at h; exact absurd h (by simp)
    · rw [hout] at h; exact absurd h (by simp)
    · rw [hout] at h
      simp only [Option.some.injEq] at h
      subst h
      refine ⟨?_, rfl, fun c hc => ?_⟩
      · show round6 ((Totals.init.add (calculate_cost AGENT1_MODEL it ot)).total_cost_usd) = _
        have harith : (Totals.init.add (calculate_cost AGENT1_MODEL it ot)).total_cost_usd =
            (calculate_cost AGENT1_MODEL it ot).total_cost_usd +
              (List.map (fun c => c.total_cost_usd) ([] : List CostRecord)).sum := by
          dsimp only [Totals.add, Totals.init, List.map_nil, List.sum_nil]
          ring
        rw [harith]
        rfl
      · exact absurd hc (by simp [blocked_result])
    · rw [hout] at h
      simp only [Option.some.injEq] at h
      subst h
      exact absurd rfl hnb
    · rw [hout] at h; exact absurd h (by simp)

/-- Closed instance of the amended C7 at the counterexample run. -/
theorem request_total_sums_rounded_per_call_witness :
    cx_result.costs.total.total_cost_usd =
      round6 (cx_result.costs.agent1.total_cost_usd +
        (cx_result.costs.fragments.map (fun c => c.total_cost_usd)).sum) :=
  (request_total_sums_rounded_per_call cx_env none cx_req cx_result rfl).1

/-- After the image is present and the duration field converts, validation
is the remaining chain of checks in source order. -/
lemma validate_with_image_and_duration (req : Request) (img : ImageFile) (d : Int)
    (himg : req.image = some img) (hd : parse_duration req.duration_field = some d) :
    validate req =
      (if pyStrip req.prompt = "" then .error (400, "No prompt provided")
       else if d ∉ VIDEO_DURATIONS then
         .error (400, "Invalid duration. Allowed: [5, 10]")
       else if img.content_type ∉ ALLOWED_IMAGE_TYPES then
         .error (400, "Unsupported image type: " ++ img.content_type ++ ". Allowed: " ++
           pyListRepr ALLOWED_IMAGE_TYPES)
       else if img.size > MAX_IMAGE_SIZE_BYTES then
         .error (400, "Image too large. Maximum size is 20 MiB.")
       else .ok ⟨img, pyStrip req.prompt, d⟩) := by
  unfold validate
  rw [himg]
  rcases hf : req.duration_field with _ | sdur
  · rw [hf] at hd
    dsimp only [parse_duration] at hd
    injection hd with hd5
    subst hd5
    rfl
  · rw [hf] at hd
    dsimp only [parse_duration] at hd
    dsimp only [parse_duration]
    rw [hd]

/-- C8: each input-validation violation — missing image, empty prompt
after trimming, disallowed duration, disallowed MIME type, oversized
image — is checked synchronously, in source order, and returns a 400
response with its specific reason before any external call is made (both
external-call counters are zero). -/
theorem validation_fails_fast (env : Env) (latest0 : Option PipelineResult) (req : Request) :
    (req.image = none →
      run_pipeline env latest0 req =
        ⟨400, some "No image file provided", none, 0, 0, latest0⟩) ∧
    (∀ img d, req.image = some img → parse_duration req.duration_field = some d →
      pyStrip req.prompt = "" →
      run_pipeline env latest0 req =
        ⟨400, some "No prompt provided", none, 0, 0, latest0⟩) ∧
    (∀ img d, req.image = some img → parse_duration req.duration_field = some d →
      pyStrip req.prompt ≠ "" → d ∉ VIDEO_DURATIONS →
      run_pipeline env latest0 req =
        ⟨400, some "Invalid duration. Allowed: [5, 10]", none, 0, 0, latest0⟩) ∧
    (∀ img d, req.image = some img → parse_duration req.duration_field = some d →
      pyStrip req.prompt ≠ "" → d ∈ VIDEO_DURATIONS →
      img.content_type ∉ ALLOWED_IMAGE_TYPES →
      run_pipeline env latest0 req =
        ⟨400, some ("Unsupported image type: " ++ img.content_type ++ ". Allowed: " ++
          pyListRepr ALLOWED_IMAGE_TYPES), none, 0, 0, latest0⟩) ∧
    (∀ img d, req.image = some img → parse_duration req.duration_field = some d →
      pyStrip req.prompt ≠ "" → d ∈ VIDEO_DURATIONS →
      img.content_type ∈ ALLOWED_IMAGE_TYPES → img.size > MAX_IMAGE_SIZE_BYTES →
      run_pipeline env latest0 req =
        ⟨400, some "Image too large. Maximum size is 20 MiB.", none, 0, 0, latest0⟩) := by
  refine ⟨fun himg => ?_, fun img d himg hd hp => ?_, fun img d himg hd hp hdur => ?_,
    fun img d himg hd hp hdur hmime => ?_, fun img d himg hd hp hdur hmime hsize => ?_⟩
  · exact run_pipeline_validate_error env latest0 req 400 _ (by rw [validate, himg])
  · have hval := validate_with_image_and_duration req img d himg hd
    rw [if_pos hp] at hval
    exact run_pipeline_validate_error env latest0 req 400 _ hval
  · have hval := validate_with_image_and_duration req img d himg hd
    rw [if_neg hp, if_pos hdur] at hval
    exact run_pipeline_validate_error env latest0 req 400 _ hval
  · have hval := validate_with_image_and_duration req img d himg hd
    rw [if_neg hp, if_neg (not_not_intro hdur), if_pos hmime] at hval
    exact run_pipeline_validate_error env latest0 req 400 _ hval
  · have hval := validate_with_image_and_duration req img d himg hd
    rw [if_neg hp, if_neg (not_not_intro hdur), if_neg (not_not_intro hmime),
      if_pos hsize] at hval
    exact run_pipeline_validate_error env latest0 req 400 _ hval

/-- Closed instance of C8: a missing image and a disallowed MIME type each
yield a 400 with zero external calls. -/
theorem validation_fails_fast_witness :
    run_pipeline cx_env none ⟨none, "hello", none⟩ =
      ⟨400, some "No image file provided", none, 0, 0, none⟩ ∧
    run_pipeline cx_env none ⟨some ⟨"image/gif", 10⟩, "hello", some "5"⟩ =
      ⟨400, some ("Unsupported image type: image/gif. Allowed: " ++
        pyListRepr ALLOWED_IMAGE_TYPES), none, 0, 0, none⟩ :=
  ⟨(validation_fails_fast cx_env none ⟨none, "hello", none⟩).1 rfl,
    (validation_fails_fast cx_env none ⟨some ⟨"image/gif", 10⟩, "hello", some "5"⟩).2.2.2.1
      ⟨"image/gif", 10⟩ 5 rfl rfl (by decide) (by decide) (by decide)⟩

/-- C10: a duration form field that does not parse as an integer raises
`ValueError` in the `int()` conversion, which the generic handler reports
as a 500 — not the 400 used for a disallowed integer duration — and the
conversion runs before the empty-prompt check, so a request with both
defects (quantified over every prompt, including empty ones) reports the
conversion failure. -/
theorem nonparsing_duration_yields_500 (env : Env) (latest0 : Option PipelineResult)
    (img : ImageFile) (p s : String) :
    (pyInt s = none →
      run_pipeline env latest0 ⟨some img, p, some s⟩ =
        ⟨500, some (int_conversion_error s), none, 0, 0, latest0⟩) ∧
    (∀ d, pyInt s = some d → d ∉ VIDEO_DURATIONS → pyStrip p ≠ "" →
      run_pipeline env latest0 ⟨some img, p, some s⟩ =
        ⟨400, some "Invalid duration. Allowed: [5, 10]", none, 0, 0, latest0⟩) := by
  constructor
  · intro hbad
    refine run_pipeline_validate_error env latest0 _ 500 _ ?_
    rw [validate]
    dsimp only [parse_duration]
    rw [hbad]
  · intro d hgood hdur hp
    have hval := validate_with_image_and_duration ⟨some img, p, some s⟩ img d rfl
      (by dsimp only [parse_duration]; exact hgood)
    rw [if_neg hp, if_pos hdur] at hval
    exact run_pipeline_validate_error env latest0 _ 400 _ hval

/-- Closed instance of C10: `duration="abc"` with a whitespace-only prompt
is a 500 conversion error; `duration="7"` with a real prompt is a 400
validation error. -/
theorem nonparsing_duration_yields_500_witness :
    run_pipeline cx_env none ⟨some ⟨"image/jpeg", 100⟩, "  ", some "abc"⟩ =
      ⟨500, some (int_conversion_error "abc"), none, 0, 0, none⟩ ∧
    run_pipeline cx_env none ⟨some ⟨"image/jpeg", 100⟩, "hello", some "7"⟩ =
      ⟨400, some "Invalid duration. Allowed: [5, 10]", none, 0, 0, none⟩ :=
  ⟨(nonparsing_duration_yields_500 cx_env none ⟨"image/jpeg", 100⟩ "  " "abc").1 (by decide),
    (nonparsing_duration_yields_500 cx_env none ⟨"image/jpeg", 100⟩ "hello" "7").2
      7 (by decide) (by decide) (by decide)⟩

end GrokValidator
